import Mathlib

/-
  Shallow embedding of pydd (src/pydd/utils/dd_client.py), the DeepDetect
  HTTP client, together with theorems settling the behavioural claims
  about it.

  Modelling conventions:
  * Python dicts used as JSON-shaped payloads become the inductive `Value`
    (a dict is an ordered association list, matching Python 3 insertion
    order).
  * The `requests` library is modelled at its call boundary: each verb
    method of class DD is split into the `Request` record it hands to
    `requests.<verb>` (the `params=` keyword populates the URL query
    string, the `data=`/`json=` keywords would populate the body) and a
    response handler. A `Response` carries the observations the code
    makes of the library response object: `status_code`, `text` (raw
    body) and `json` (the result of the library parsing the body as
    JSON, i.e. what `r.json()` returns or the decode error it raises).
    `raise_for_status` raises `HTTPError` exactly for status codes in
    [400, 600).
  * Python exceptions become `Except`: `KeyError` from the URL-table
    lookup in the constructor, `AssertionError` from
    `set_return_format`, `HTTPError`/JSON-decode errors from the verb
    handlers.
  * Mutation of `self.__returntype` becomes explicit state passing on
    `DDState`; `Op`/`DD.step` replays any sequence of public method
    calls for the state invariant.
-/

namespace PyDD

/-- JSON-shaped values: Python dicts, lists, strings, ints, bools, None. -/
inductive Value where
| vNull : Value
| vBool : Bool → Value
| vInt : Int → Value
| vStr : String → Value
| vList : List Value → Value
| vDict : List (String × Value) → Value

/-- Module-level constant DD_TIMEOUT = 86400 (24h). -/
def DD_TIMEOUT : Nat := 86400

/-- Module-level table API_METHODS_URL: api version to resource-path map. -/
def API_METHODS_URL : List (String × List (String × String)) :=
  [("0.1", [("info", "/info"), ("services", "/services"),
            ("train", "/train"), ("predict", "/predict")])]

namespace DD

/-- Class constant DD.RETURN_JSON = 0. -/
def RETURN_JSON : Int := 0

/-- Class constant DD.RETURN_TEXT = 1. -/
def RETURN_TEXT : Int := 1

/-- Class constant DD.RETURN_NONE = 2. -/
def RETURN_NONE : Int := 2

/-- Private class constant DD.__HTTP = 0. -/
def HTTP : Int := 0

/-- Private class constant DD.__HTTPS = 1. -/
def HTTPS : Int := 1

end DD

/-- Instance state of class DD after a successful __init__. -/
structure DDState where
  apiversion : String
  urls : List (String × String)
  host : String
  port : Int
  proto : Int
  returntype : Int
  ddurl : String
deriving DecidableEq

/-- DD.__init__(host, port, proto, apiversion). The subscript
API_METHODS_URL[apiversion] raises KeyError when the version is absent;
otherwise all fields are assigned and the base URL is built from the
proto selector (http when proto == DD.__HTTP, https otherwise). -/
def DD.init (host : String := "localhost") (port : Int := 8080)
    (proto : Int := 0) (apiversion : String := "0.1") :
    Except String DDState :=
  match API_METHODS_URL.lookup apiversion with
  | none => .error ("KeyError: " ++ apiversion)
  | some urls =>
      .ok { apiversion := apiversion, urls := urls, host := host,
            port := port, proto := proto, returntype := DD.RETURN_JSON,
            ddurl :=
              if proto = DD.HTTP then
                "http://" ++ host ++ ":" ++ toString port
              else
                "https://" ++ host ++ ":" ++ toString port }

/-- DD.set_return_format(f): assert membership in the three constants,
then assign self.__returntype. A failed assert raises before assigning. -/
def DD.set_return_format (st : DDState) (f : Int) : Except String DDState :=
  if f = DD.RETURN_JSON ∨ f = DD.RETURN_TEXT ∨ f = DD.RETURN_NONE then
    .ok { st with returntype := f }
  else
    .error "AssertionError"

/-- Observations the client makes of a requests-library response object:
the numeric status, the raw body text, and the result of the library
parsing the body as JSON (what r.json() returns, or the decode error it
raises). -/
structure Response where
  status_code : Nat
  text : String
  json : Except String Value

/-- The value a verb method hands back to its caller. -/
inductive RetData where
| jsonData : Value → RetData
| textData : String → RetData
| noneData : RetData

/-- Errors a verb method can raise: HTTPError from r.raise_for_status()
carrying the status code, or a JSON decode error from r.json(). -/
inductive DDErr where
| httpStatus : Nat → DDErr
| jsonDecode : String → DDErr

/-- DD.__return_data(r): dispatch on self.__returntype. -/
def DD.return_data (st : DDState) (r : Response) : Except DDErr RetData :=
  if st.returntype = DD.RETURN_JSON then
    match r.json with
    | .ok v => .ok (RetData.jsonData v)
    | .error e => .error (DDErr.jsonDecode e)
  else if st.returntype = DD.RETURN_TEXT then
    .ok (RetData.textData r.text)
  else
    .ok RetData.noneData

/-- The HTTP request a verb method hands to the requests library.
`query` is what the `params=` keyword carries (URL query string);
`body` is what a `data=`/`json=` keyword would carry (none of the four
verb methods passes one). -/
structure Request where
  verb : String
  url : String
  query : Option Value
  body : Option Value
  timeout : Nat

/-- Shared response handling of the four verb methods:
r.raise_for_status() (HTTPError exactly for status in [400, 600)),
then self.__return_data(r). -/
def DD.handle (st : DDState) (r : Response) : Except DDErr RetData :=
  if 400 ≤ r.status_code ∧ r.status_code < 600 then
    .error (DDErr.httpStatus r.status_code)
  else
    DD.return_data st r

/-- DD.get(method, params=None): requests.get(url, params=params,
timeout=DD_TIMEOUT), raise_for_status, __return_data. -/
def DD.get (st : DDState) (method : String)
    (params : Option Value := none) :
    Request × (Response → Except DDErr RetData) :=
  ({ verb := "GET", url := st.ddurl ++ method, query := params,
     body := none, timeout := DD_TIMEOUT },
   fun r => DD.handle st r)

/-- DD.put(method, params): requests.put(url, params=params,
timeout=DD_TIMEOUT), raise_for_status, __return_data. The params=
keyword populates the URL query string; no body keyword is passed. -/
def DD.put (st : DDState) (method : String) (params : Option Value) :
    Request × (Response → Except DDErr RetData) :=
  ({ verb := "PUT", url := st.ddurl ++ method, query := params,
     body := none, timeout := DD_TIMEOUT },
   fun r => DD.handle st r)

/-- DD.post(method, params): requests.post(url, params=params,
timeout=DD_TIMEOUT), raise_for_status, __return_data. The params=
keyword populates the URL query string; no body keyword is passed. -/
def DD.post (st : DDState) (method : String) (params : Option Value) :
    Request × (Response → Except DDErr RetData) :=
  ({ verb := "POST", url := st.ddurl ++ method, query := params,
     body := none, timeout := DD_TIMEOUT },
   fun r => DD.handle st r)

/-- DD.delete(method, params): requests.delete(url, params=params,
timeout=DD_TIMEOUT), raise_for_status, __return_data. -/
def DD.delete (st : DDState) (method : String) (params : Option Value) :
    Request × (Response → Except DDErr RetData) :=
  ({ verb := "DELETE", url := st.ddurl ++ method, query := params,
     body := none, timeout := DD_TIMEOUT },
   fun r => DD.handle st r)

/-- Subscript self.__urls[key]. For every state produced by DD.init the
key is present (the table rows list all four resources); the default
covers only unreachable states. -/
def urlFor (st : DDState) (key : String) : String :=
  (st.urls.lookup key).getD ""

/-- DD.info(): GET on the info path, no parameters. -/
def DD.info (st : DDState) : Request × (Response → Except DDErr RetData) :=
  DD.get st (urlFor st "info")

/-- DD.put_service(sname, model, description, mllib, parameters_input,
parameters_mllib, parameters_output, mltype): PUT on services/{sname}
with the documented payload dict. -/
def DD.put_service (st : DDState) (sname : String) (model : Value)
    (description : String) (mllib : String)
    (parameters_input parameters_mllib parameters_output : Value)
    (mltype : String := "supervised") :
    Request × (Response → Except DDErr RetData) :=
  let params := Value.vDict
    [("description", Value.vStr description),
     ("mllib", Value.vStr mllib),
     ("type", Value.vStr mltype),
     ("parameters", Value.vDict
        [("input", parameters_input),
         ("mllib", parameters_mllib),
         ("output", parameters_output)]),
     ("model", model)]
  DD.put st (urlFor st "services" ++ "/" ++ sname) (some params)

/-- DD.get_service(sname): GET on services/{sname}. -/
def DD.get_service (st : DDState) (sname : String) :
    Request × (Response → Except DDErr RetData) :=
  DD.get st (urlFor st "services" ++ "/" ++ sname)

/-- DD.delete_service(sname, clear=None): params stays None unless
`clear` is truthy (a non-None, non-empty string), in which case it is
the one-entry dict. -/
def DD.delete_service (st : DDState) (sname : String)
    (clear : Option String := none) :
    Request × (Response → Except DDErr RetData) :=
  let params : Option Value :=
    match clear with
    | some c =>
        if c = "" then none else some (Value.vDict [("clear", Value.vStr c)])
    | none => none
  DD.delete st (urlFor st "services" ++ "/" ++ sname) params

/-- DD.post_train(sname, data, parameters_input, parameters_mllib,
parameters_output, async=True): POST on the train path with the
documented payload dict. -/
def DD.post_train (st : DDState) (sname : String) (data : Value)
    (parameters_input parameters_mllib parameters_output : Value)
    (async : Bool := true) :
    Request × (Response → Except DDErr RetData) :=
  let params := Value.vDict
    [("service", Value.vStr sname),
     ("async", Value.vBool async),
     ("parameters", Value.vDict
        [("input", parameters_input),
         ("mllib", parameters_mllib),
         ("output", parameters_output)]),
     ("data", data)]
  DD.post st (urlFor st "train") (some params)

/-- DD.get_train(sname, job=1, timeout=0, measure_hist=False): GET on
the train path; job and timeout are stringified; the measure_hist key
is inserted (at the end, Python dict order) only when the flag is
truthy, carrying the flag itself as value. -/
def DD.get_train (st : DDState) (sname : String) (job : Int := 1)
    (timeout : Int := 0) (measure_hist : Bool := false) :
    Request × (Response → Except DDErr RetData) :=
  let base := [("service", Value.vStr sname),
               ("job", Value.vStr (toString job)),
               ("timeout", Value.vStr (toString timeout))]
  let params :=
    if measure_hist then
      base ++ [("parameters.output.measure_hist", Value.vBool measure_hist)]
    else
      base
  DD.get st (urlFor st "train") (some (Value.vDict params))

/-- DD.delete_train(sname, job=1): DELETE on the train path. -/
def DD.delete_train (st : DDState) (sname : String) (job : Int := 1) :
    Request × (Response → Except DDErr RetData) :=
  DD.delete st (urlFor st "train")
    (some (Value.vDict [("service", Value.vStr sname),
                        ("job", Value.vStr (toString job))]))

/-- DD.post_predict(sname, data, parameters_input, parameters_mllib,
parameters_output): POST on the predict path. -/
def DD.post_predict (st : DDState) (sname : String) (data : Value)
    (parameters_input parameters_mllib parameters_output : Value) :
    Request × (Response → Except DDErr RetData) :=
  let params := Value.vDict
    [("service", Value.vStr sname),
     ("parameters", Value.vDict
        [("input", parameters_input),
         ("mllib", parameters_mllib),
         ("output", parameters_output)]),
     ("data", data)]
  DD.post st (urlFor st "predict") (some params)

/-- One public method call on a DD instance, for replaying call
sequences against the instance state. -/
inductive Op where
| setReturnFormat : Int → Op
| getOp : String → Option Value → Op
| putOp : String → Option Value → Op
| postOp : String → Option Value → Op
| deleteOp : String → Option Value → Op
| infoOp : Op
| putServiceOp : String → Value → String → String → Value → Value → Value → String → Op
| getServiceOp : String → Op
| deleteServiceOp : String → Option String → Op
| postTrainOp : String → Value → Value → Value → Value → Bool → Op
| getTrainOp : String → Int → Int → Bool → Op
| deleteTrainOp : String → Int → Op
| postPredictOp : String → Value → Value → Value → Value → Op

/-- Effect of one method call on the instance state. Only
set_return_format assigns an attribute (and only after its assert
succeeds); every other method merely reads self. -/
def DD.step (st : DDState) (op : Op) : DDState :=
  match op with
  | .setReturnFormat f =>
      match DD.set_return_format st f with
      | .ok st2 => st2
      | .error _ => st
  | _ => st


/-- True exactly when construction succeeds for the given arguments. -/
def DD.initOk (host : String) (port proto : Int) (apiversion : String) : Bool :=
  match DD.init host port proto apiversion with
  | .ok _ => true
  | .error _ => false

/-- The resource-path table stored for api version 0.1. -/
def urls01 : List (String × String) :=
  [("info", "/info"), ("services", "/services"),
   ("train", "/train"), ("predict", "/predict")]

/-- The instance state a default construction DD() produces. -/
def st0 : DDState :=
  { apiversion := "0.1", urls := urls01, host := "localhost", port := 8080,
    proto := 0, returntype := DD.RETURN_JSON,
    ddurl := "http://" ++ "localhost" ++ ":" ++ toString (8080 : Int) }

/-- st0 in text mode, for exercising the dispatch. -/
def stText : DDState := { st0 with returntype := DD.RETURN_TEXT }

/-- st0 in none mode, for exercising the dispatch. -/
def stNone : DDState := { st0 with returntype := DD.RETURN_NONE }

/-- A sample parsed JSON document. -/
def v0 : Value := Value.vDict [("status", Value.vStr "ok")]

/-- A sample successful response whose body parses as v0. -/
def rOK : Response :=
  { status_code := 200, text := "body", json := .ok v0 }

/-- A sample server-error response. -/
def r500 : Response :=
  { status_code := 500, text := "err", json := .error "boom" }

/-- The valid values of the private returntype attribute. -/
def validRT (x : Int) : Prop :=
  x = DD.RETURN_JSON ∨ x = DD.RETURN_TEXT ∨ x = DD.RETURN_NONE

instance (x : Int) : Decidable (validRT x) := by
  unfold validRT; infer_instance

theorem reduce_init (host : String) (port proto : Int) :
    DD.init host port proto "0.1" =
      .ok { apiversion := "0.1", urls := urls01, host := host, port := port,
            proto := proto, returntype := DD.RETURN_JSON,
            ddurl :=
              if proto = DD.HTTP then
                "http://" ++ host ++ ":" ++ toString port
              else
                "https://" ++ host ++ ":" ++ toString port } := rfl

/-- C1: on a successful request (status outside the raising range
[400, 600)) the value returned is governed by the return mode:
RETURN_JSON returns the JSON-parsed body, RETURN_TEXT the raw body
string, RETURN_NONE nothing, across all four verbs; and any client
constructed with the default api version starts in RETURN_JSON mode. -/
theorem return_mode_dispatch (st : DDState) (m : String) (p : Option Value)
    (r : Response) (v : Value)
    (hok : ¬ (400 ≤ r.status_code ∧ r.status_code < 600)) :
    (st.returntype = DD.RETURN_JSON → r.json = .ok v →
       (DD.get st m p).2 r = .ok (RetData.jsonData v) ∧
       (DD.put st m p).2 r = .ok (RetData.jsonData v) ∧
       (DD.post st m p).2 r = .ok (RetData.jsonData v) ∧
       (DD.delete st m p).2 r = .ok (RetData.jsonData v)) ∧
    (st.returntype = DD.RETURN_TEXT →
       (DD.get st m p).2 r = .ok (RetData.textData r.text) ∧
       (DD.put st m p).2 r = .ok (RetData.textData r.text) ∧
       (DD.post st m p).2 r = .ok (RetData.textData r.text) ∧
       (DD.delete st m p).2 r = .ok (RetData.textData r.text)) ∧
    (st.returntype = DD.RETURN_NONE →
       (DD.get st m p).2 r = .ok RetData.noneData ∧
       (DD.put st m p).2 r = .ok RetData.noneData ∧
       (DD.post st m p).2 r = .ok RetData.noneData ∧
       (DD.delete st m p).2 r = .ok RetData.noneData) ∧
    (∀ host port proto st2, DD.init host port proto "0.1" = .ok st2 →
       st2.returntype = DD.RETURN_JSON) := by
  refine ⟨?_, ?_, ?_, ?_⟩
  · intro hj hv
    have h : DD.handle st r = .ok (RetData.jsonData v) := by
      simp [DD.handle, hok, DD.return_data, hj, hv]
    exact ⟨h, h, h, h⟩
  · intro ht
    have h : DD.handle st r = .ok (RetData.textData r.text) := by
      simp [DD.handle, hok, DD.return_data, ht,
            DD.RETURN_TEXT, DD.RETURN_JSON]
    exact ⟨h, h, h, h⟩
  · intro hn
    have h : DD.handle st r = .ok RetData.noneData := by
      simp [DD.handle, hok, DD.return_data, hn,
            DD.RETURN_NONE, DD.RETURN_TEXT, DD.RETURN_JSON]
    exact ⟨h, h, h, h⟩
  · intro host port proto st2 h
    rw [reduce_init] at h
    injection h with h2
    subst h2
    rfl

/-- C1 witness: concrete dispatch in all three modes plus the default
mode of a freshly constructed client. -/
theorem return_mode_dispatch_witness :
    (DD.get st0 "/info" none).2 rOK = .ok (RetData.jsonData v0) ∧
    (DD.put stText "/info" none).2 rOK = .ok (RetData.textData "body") ∧
    (DD.post stNone "/info" none).2 rOK = .ok RetData.noneData ∧
    st0.returntype = DD.RETURN_JSON :=
  ⟨((return_mode_dispatch st0 "/info" none rOK v0 (by decide)).1 rfl rfl).1,
   (((return_mode_dispatch stText "/info" none rOK v0
        (by decide)).2.1 rfl).2.1 : _),
   (((return_mode_dispatch stNone "/info" none rOK v0
        (by decide)).2.2.1 rfl).2.2.1 : _),
   (return_mode_dispatch st0 "/info" none rOK v0
        (by decide)).2.2.2 "localhost" 8080 0 st0 rfl⟩

/-- Sample parameter map for the body/query counterexample. -/
def p0 : Value := Value.vDict [("service", Value.vStr "digits")]

/-- C2 counterexample: at a concrete path and parameter map, the PUT and
POST requests built by the client carry the map in the URL query string
(the requests params= keyword) and have no request body at all, so the
map is not carried as the request body. -/
theorem put_post_body_counterexample :
    (DD.put st0 "/train" (some p0)).1.body = none ∧
    (DD.put st0 "/train" (some p0)).1.query = some p0 ∧
    (DD.post st0 "/train" (some p0)).1.body = none ∧
    (DD.post st0 "/train" (some p0)).1.query = some p0 ∧
    (DD.put st0 "/train" (some p0)).1.body ≠ some p0 ∧
    (DD.post st0 "/train" (some p0)).1.body ≠ some p0 := by
  refine ⟨rfl, rfl, rfl, rfl, ?_, ?_⟩ <;> intro h <;> exact Option.noConfusion h

/-- C2 (amended): for every path and parameter map, put issues an HTTP
PUT and post an HTTP POST on base-url ++ path, carrying the parameter
map as URL query parameters (the requests params= keyword) with no
request body, and the fixed 86400-second timeout. -/
theorem put_post_send_query_params (st : DDState) (m : String)
    (p : Option Value) :
    (DD.put st m p).1 =
      { verb := "PUT", url := st.ddurl ++ m, query := p, body := none,
        timeout := DD_TIMEOUT } ∧
    (DD.post st m p).1 =
      { verb := "POST", url := st.ddurl ++ m, query := p, body := none,
        timeout := DD_TIMEOUT } :=
  ⟨rfl, rfl⟩

/-- C3: construction with an api version absent from API_METHODS_URL
raises a KeyError (the constructor contains no network call, so no
request is issued), while construction with a version present in the
table, such as the default 0.1, succeeds. -/
theorem init_apiversion_lookup (host : String) (port proto : Int)
    (v : String) (habs : API_METHODS_URL.lookup v = none) :
    DD.init host port proto v = .error ("KeyError: " ++ v) ∧
    DD.initOk host port proto "0.1" = true := by
  constructor
  · unfold DD.init
    rw [habs]
  · rfl

/-- C3 witness: version 0.2 is absent and construction fails; the
default version 0.1 constructs successfully. -/
theorem init_apiversion_lookup_witness :
    DD.init "localhost" 8080 0 "0.2" = .error ("KeyError: " ++ "0.2") ∧
    DD.initOk "localhost" 8080 0 "0.1" = true :=
  init_apiversion_lookup "localhost" 8080 0 "0.2" (by decide)

/-- C4: set_return_format succeeds exactly on the three defined mode
constants, leaving all other state intact and updating only the
returntype attribute; any other value fails the assert (the method
contains no network call). -/
theorem set_return_format_validates (st : DDState) (f : Int) :
    (validRT f →
       DD.set_return_format st f = .ok { st with returntype := f }) ∧
    (¬ validRT f →
       DD.set_return_format st f = .error "AssertionError") := by
  unfold validRT
  constructor <;> intro h <;> simp [DD.set_return_format, h]

/-- C4 witness: setting RETURN_TEXT succeeds, setting 5 fails. -/
theorem set_return_format_validates_witness :
    DD.set_return_format st0 DD.RETURN_TEXT =
      .ok { st0 with returntype := DD.RETURN_TEXT } ∧
    DD.set_return_format st0 5 = .error "AssertionError" :=
  ⟨(set_return_format_validates st0 DD.RETURN_TEXT).1 (by decide),
   (set_return_format_validates st0 5).2 (by decide)⟩

/-- C5: for each of the four verb methods, a response whose status is in
the raising range of raise_for_status (any non-success status, 400 to
599) makes the method raise HTTPError carrying the numeric status code
instead of returning a formatted value. -/
theorem verbs_raise_on_error_status (st : DDState) (m : String)
    (p : Option Value) (r : Response) (h4 : 400 ≤ r.status_code)
    (h6 : r.status_code < 600) :
    (DD.get st m p).2 r = .error (DDErr.httpStatus r.status_code) ∧
    (DD.put st m p).2 r = .error (DDErr.httpStatus r.status_code) ∧
    (DD.post st m p).2 r = .error (DDErr.httpStatus r.status_code) ∧
    (DD.delete st m p).2 r = .error (DDErr.httpStatus r.status_code) := by
  have h : DD.handle st r = .error (DDErr.httpStatus r.status_code) := by
    simp [DD.handle, h4, h6]
  exact ⟨h, h, h, h⟩

/-- C5 witness: a 500 response makes all four verbs raise HTTPError 500. -/
theorem verbs_raise_on_error_status_witness :
    (DD.get st0 "/info" none).2 r500 = .error (DDErr.httpStatus 500) ∧
    (DD.put st0 "/info" none).2 r500 = .error (DDErr.httpStatus 500) ∧
    (DD.post st0 "/info" none).2 r500 = .error (DDErr.httpStatus 500) ∧
    (DD.delete st0 "/info" none).2 r500 = .error (DDErr.httpStatus 500) :=
  verbs_raise_on_error_status st0 "/info" none r500 (by decide) (by decide)
/-- C6: delete_service issues a DELETE on services/{name}; with no
clear mode the request carries no parameters at all, and with clear
mode full the parameter map is exactly the one-entry clear dict. -/
theorem delete_service_clear_param (host : String) (port proto : Int)
    (st : DDState) (hinit : DD.init host port proto "0.1" = .ok st)
    (sname : String) :
    (DD.delete_service st sname none).1 =
      { verb := "DELETE", url := st.ddurl ++ ("/services/" ++ sname),
        query := none, body := none, timeout := DD_TIMEOUT } ∧
    (DD.delete_service st sname (some "full")).1 =
      { verb := "DELETE", url := st.ddurl ++ ("/services/" ++ sname),
        query := some (Value.vDict [("clear", Value.vStr "full")]),
        body := none, timeout := DD_TIMEOUT } := by
  rw [reduce_init] at hinit
  injection hinit with h2
  subst h2
  exact ⟨rfl, rfl⟩

/-- C6 witness: concrete requests for service mnist with and without a
clear mode. -/
theorem delete_service_clear_param_witness :
    (DD.delete_service st0 "mnist" none).1 =
      { verb := "DELETE", url := st0.ddurl ++ ("/services/" ++ "mnist"),
        query := none, body := none, timeout := DD_TIMEOUT } ∧
    (DD.delete_service st0 "mnist" (some "full")).1 =
      { verb := "DELETE", url := st0.ddurl ++ ("/services/" ++ "mnist"),
        query := some (Value.vDict [("clear", Value.vStr "full")]),
        body := none, timeout := DD_TIMEOUT } :=
  delete_service_clear_param "localhost" 8080 0 st0 rfl "mnist"

/-- C7: get_train issues a GET on the train path whose parameter map
holds service, the stringified job id and the stringified timeout; the
parameters.output.measure_hist key is present exactly when the flag is
true; all of job, timeout and the flag default to 1, 0 and false. -/
theorem get_train_params (host : String) (port proto : Int)
    (st : DDState) (hinit : DD.init host port proto "0.1" = .ok st)
    (sname : String) (job timeout : Int) :
    (DD.get_train st sname job timeout false).1 =
      { verb := "GET", url := st.ddurl ++ "/train",
        query := some (Value.vDict
          [("service", Value.vStr sname),
           ("job", Value.vStr (toString job)),
           ("timeout", Value.vStr (toString timeout))]),
        body := none, timeout := DD_TIMEOUT } ∧
    (DD.get_train st sname job timeout true).1 =
      { verb := "GET", url := st.ddurl ++ "/train",
        query := some (Value.vDict
          [("service", Value.vStr sname),
           ("job", Value.vStr (toString job)),
           ("timeout", Value.vStr (toString timeout)),
           ("parameters.output.measure_hist", Value.vBool true)]),
        body := none, timeout := DD_TIMEOUT } ∧
    DD.get_train st sname = DD.get_train st sname 1 0 false := by
  rw [reduce_init] at hinit
  injection hinit with h2
  subst h2
  exact ⟨rfl, rfl, rfl⟩

/-- C7 witness: job 3 with the measure-history flag set produces job
equal to the string 3 and the measure_hist key; with the flag unset the
key is absent. -/
theorem get_train_params_witness :
    (DD.get_train st0 "digits" 3 0 false).1 =
      { verb := "GET", url := st0.ddurl ++ "/train",
        query := some (Value.vDict
          [("service", Value.vStr "digits"),
           ("job", Value.vStr (toString (3 : Int))),
           ("timeout", Value.vStr (toString (0 : Int)))]),
        body := none, timeout := DD_TIMEOUT } ∧
    (DD.get_train st0 "digits" 3 0 true).1 =
      { verb := "GET", url := st0.ddurl ++ "/train",
        query := some (Value.vDict
          [("service", Value.vStr "digits"),
           ("job", Value.vStr (toString (3 : Int))),
           ("timeout", Value.vStr (toString (0 : Int))),
           ("parameters.output.measure_hist", Value.vBool true)]),
        body := none, timeout := DD_TIMEOUT } ∧
    DD.get_train st0 "digits" = DD.get_train st0 "digits" 1 0 false :=
  get_train_params "localhost" 8080 0 st0 rfl "digits" 3 0

/-- C8: post_train issues a POST on the train path whose parameter map
is exactly the service, async flag, nested parameters dict and data,
with the async flag defaulting to true. -/
theorem post_train_payload (host : String) (port proto : Int)
    (st : DDState) (hinit : DD.init host port proto "0.1" = .ok st)
    (sname : String) (data pin pml pout : Value) (async : Bool) :
    (DD.post_train st sname data pin pml pout async).1 =
      { verb := "POST", url := st.ddurl ++ "/train",
        query := some (Value.vDict
          [("service", Value.vStr sname),
           ("async", Value.vBool async),
           ("parameters", Value.vDict
              [("input", pin), ("mllib", pml), ("output", pout)]),
           ("data", data)]),
        body := none, timeout := DD_TIMEOUT } ∧
    DD.post_train st sname data pin pml pout =
      DD.post_train st sname data pin pml pout true := by
  rw [reduce_init] at hinit
  injection hinit with h2
  subst h2
  exact ⟨rfl, rfl⟩

/-- C8 witness: the digits training request carries service digits, the
default async true and the data list. -/
theorem post_train_payload_witness :
    (DD.post_train st0 "digits" (Value.vList [Value.vStr "train.svm"])
        (Value.vDict []) (Value.vDict []) (Value.vDict []) true).1 =
      { verb := "POST", url := st0.ddurl ++ "/train",
        query := some (Value.vDict
          [("service", Value.vStr "digits"),
           ("async", Value.vBool true),
           ("parameters", Value.vDict
              [("input", Value.vDict []), ("mllib", Value.vDict []),
               ("output", Value.vDict [])]),
           ("data", Value.vList [Value.vStr "train.svm"])]),
        body := none, timeout := DD_TIMEOUT } ∧
    DD.post_train st0 "digits" (Value.vList [Value.vStr "train.svm"])
        (Value.vDict []) (Value.vDict []) (Value.vDict []) =
      DD.post_train st0 "digits" (Value.vList [Value.vStr "train.svm"])
        (Value.vDict []) (Value.vDict []) (Value.vDict []) true :=
  post_train_payload "localhost" 8080 0 st0 rfl "digits"
    (Value.vList [Value.vStr "train.svm"])
    (Value.vDict []) (Value.vDict []) (Value.vDict []) true

theorem step_preserves_validRT (st : DDState) (op : Op)
    (h : validRT st.returntype) : validRT ((DD.step st op).returntype) := by
  cases op
  case setReturnFormat f =>
    by_cases hf : validRT f
    · have hs : DD.set_return_format st f = .ok { st with returntype := f } := by
        unfold validRT at hf
        simp [DD.set_return_format, hf]
      simp [DD.step, hs]
      exact hf
    · have hs : DD.set_return_format st f = .error "AssertionError" := by
        unfold validRT at hf
        simp [DD.set_return_format, hf]
      simp [DD.step, hs]
      exact h
  all_goals exact h

theorem foldl_step_validRT (ops : List Op) (st : DDState)
    (h : validRT st.returntype) :
    validRT ((ops.foldl DD.step st).returntype) := by
  induction ops generalizing st with
  | nil => exact h
  | cons op rest ih => exact ih (DD.step st op) (step_preserves_validRT st op h)

/-- C9: the returntype attribute always holds one of the three defined
constants: the constructor initializes it to RETURN_JSON, a
set_return_format call whose assert fails leaves the state unchanged,
and after any sequence of public method calls the attribute is still
one of the three constants (no other method writes it). -/
theorem returntype_invariant (host : String) (port proto : Int)
    (st : DDState) (hinit : DD.init host port proto "0.1" = .ok st)
    (ops : List Op) (f : Int) (hbad : ¬ validRT f) :
    st.returntype = DD.RETURN_JSON ∧
    DD.step st (Op.setReturnFormat f) = st ∧
    validRT ((ops.foldl DD.step st).returntype) := by
  have h0 : st.returntype = DD.RETURN_JSON := by
    rw [reduce_init] at hinit
    injection hinit with h2
    subst h2
    rfl
  refine ⟨h0, ?_, ?_⟩
  · have hs : DD.set_return_format st f = .error "AssertionError" := by
      unfold validRT at hbad
      simp [DD.set_return_format, hbad]
    simp [DD.step, hs]
  · exact foldl_step_validRT ops st (Or.inl h0)

/-- C9 witness: a freshly constructed client starts in RETURN_JSON, a
rejected set_return_format 7 leaves the state unchanged, and a concrete
call sequence keeps the attribute among the three constants. -/
theorem returntype_invariant_witness :
    st0.returntype = DD.RETURN_JSON ∧
    DD.step st0 (Op.setReturnFormat 7) = st0 ∧
    validRT (([Op.setReturnFormat 2, Op.setReturnFormat 7,
               Op.infoOp].foldl DD.step st0).returntype) :=
  returntype_invariant "localhost" 8080 0 st0 rfl
    [Op.setReturnFormat 2, Op.setReturnFormat 7, Op.infoOp] 7 (by decide)

/-- C10: the constructor never validates the proto selector: proto 0
yields an http base URL and every other value, including 2 and -1,
still constructs successfully and yields an https base URL. -/
theorem proto_unvalidated (host : String) (port proto : Int) :
    (proto = 0 → DD.init host port proto "0.1" =
       .ok { apiversion := "0.1", urls := urls01, host := host,
             port := port, proto := proto,
             returntype := DD.RETURN_JSON,
             ddurl := "http://" ++ host ++ ":" ++ toString port }) ∧
    (proto ≠ 0 → DD.init host port proto "0.1" =
       .ok { apiversion := "0.1", urls := urls01, host := host,
             port := port, proto := proto,
             returntype := DD.RETURN_JSON,
             ddurl := "https://" ++ host ++ ":" ++ toString port }) := by
  rw [reduce_init]
  constructor <;> intro h <;> simp [DD.HTTP, h]

/-- C10 witness: proto 0 gives http; proto 2 and proto -1 both construct
successfully and give https. -/
theorem proto_unvalidated_witness :
    DD.init "localhost" 8080 0 "0.1" =
      .ok { apiversion := "0.1", urls := urls01, host := "localhost",
            port := 8080, proto := 0, returntype := DD.RETURN_JSON,
            ddurl := "http://" ++ "localhost" ++ ":" ++
                     toString (8080 : Int) } ∧
    DD.init "localhost" 8080 2 "0.1" =
      .ok { apiversion := "0.1", urls := urls01, host := "localhost",
            port := 8080, proto := 2, returntype := DD.RETURN_JSON,
            ddurl := "https://" ++ "localhost" ++ ":" ++
                     toString (8080 : Int) } ∧
    DD.init "localhost" 8080 (-1) "0.1" =
      .ok { apiversion := "0.1", urls := urls01, host := "localhost",
            port := 8080, proto := -1, returntype := DD.RETURN_JSON,
            ddurl := "https://" ++ "localhost" ++ ":" ++
                     toString (8080 : Int) } :=
  ⟨(proto_unvalidated "localhost" 8080 0).1 rfl,
   (proto_unvalidated "localhost" 8080 2).2 (by decide),
   (proto_unvalidated "localhost" 8080 (-1)).2 (by decide)⟩

end PyDD
